import Mathlib

/-!
Verification development for the Notion MCP server (`src/notion_mcp/server.py`).

The Python module is a request/response translation layer: each tool handler
builds a payload, issues remote calls through the `notion_client` library, and
reshapes the response (or exception) into a result dictionary.  We embed the
handlers as total Lean functions.  Remote calls are modelled by passing in the
response each call would produce, as an `Except Exc` value (`Exc.api` for
`APIResponseError`, `Exc.other` for any other exception); each handler returns
the Python dictionary it would produce (as a small JSON value `J`) together
with the list of remote calls it performed, in order.
-/

namespace NotionMCP

/-- One rich-text fragment, as consumed by the handlers: only its
`plain_text` projection is ever read. -/
structure RichText where
  plain_text : String
deriving Repr, DecidableEq

/-- A property value inside a page's `properties` mapping, as the code reads
it: `ptype` is `prop_value.get("type")` (`none` when the key is absent) and
`title` is `prop_value.get("title")`, where an absent key and an empty list
are observably identical to the code (both falsy, and the list is only
indexed after a truthiness check). -/
structure PropVal where
  ptype : Option String
  title : List RichText
deriving Repr, DecidableEq

/-- An external page object (page retrieval result or search hit).
`properties` is `none` when the `"properties"` key is absent; the mapping is
an association list in Python dict insertion order. -/
structure Page where
  id : String
  url : String
  last_edited_time : Option String
  properties : Option (List (String × PropVal))
deriving Repr, DecidableEq

/-- A child block from `blocks.children.list`: `btype` is `block.get("type")`
and `richText` is the `rich_text` field of `block.get(block_type, {})`
(`none` when that sub-object has no `rich_text` key). -/
structure Block where
  btype : Option String
  richText : Option (List RichText)
deriving Repr, DecidableEq

/-- An entry of the `content` list built by `get_page_content`:
`{"type": block_type, "text": text}`. -/
structure ContentBlock where
  ctype : Option String
  text : String
deriving Repr, DecidableEq

/-- Small JSON model for the dictionaries the handlers build and return. -/
inductive J where
  | null : J
  | bool : Bool → J
  | str : String → J
  | nat : Nat → J
  | list : List J → J
  | obj : List (String × J) → J
deriving Repr

/-- Key lookup in a JSON object (`none` on non-objects and missing keys). -/
def J.lookup : J → String → Option J
  | .obj fields, k => List.lookup k fields
  | _, _ => none

/-- Python `"".join`: concatenate a list of strings in order. -/
def joinAll : List String → String
  | [] => ""
  | s :: rest => s ++ joinAll rest

/-- The scan predicate of the title-extraction loops:
`prop_value.get("type") == "title" and prop_value.get("title")`. -/
def isTitleProp (pv : PropVal) : Bool :=
  pv.ptype == some "title" && !pv.title.isEmpty

/-- `title_list[0]["plain_text"]`, with the `"Untitled"` default kept for the
(unreached) empty case. -/
def firstPlainText : List RichText → String
  | [] => "Untitled"
  | f :: _ => f.plain_text

/-- The `for prop_name, prop_value in page["properties"].items(): ... break`
loop shared by `get_page_content` and `get_recent_pages` (and the `elif`
branch of `search_pages`): first property in mapping order whose type tag is
`"title"` with a truthy title list wins; otherwise `"Untitled"`. -/
def scanTitle (props : List (String × PropVal)) : String :=
  match props.find? (fun p => isTitleProp p.2) with
  | some (_, pv) => firstPlainText pv.title
  | none => "Untitled"

/-- Title extraction as written in `get_page_content` and
`get_recent_pages`: plain tag-scan over the properties mapping. -/
def extractTitleScan (page : Page) : String :=
  match page.properties with
  | none => "Untitled"
  | some props => scanTitle props

/-- Title extraction as written in `search_pages`: when the mapping has an
entry literally named `"title"`, only that entry is consulted (its first
fragment when its title list is truthy, else `"Untitled"` — the type tag is
not checked and the `elif` tag-scan is skipped); only when no `"title"` name
exists does the tag-scan run. -/
def extractTitleSearch (page : Page) : String :=
  match page.properties with
  | none => "Untitled"
  | some props =>
    match props.lookup "title" with
    | some tp => firstPlainText tp.title
    | none => scanTitle props

/-- Concatenated `plain_text` of a block's rich text (empty when the block
has no `rich_text` field). -/
def blockJoinedText (b : Block) : String :=
  match b.richText with
  | none => ""
  | some l => joinAll (l.map (fun rt => rt.plain_text))

/-- Whether `get_page_content` keeps a block: it has a `rich_text` field and
the concatenated text is non-empty. -/
def blockKept (b : Block) : Bool :=
  match b.richText with
  | none => false
  | some l => joinAll (l.map (fun rt => rt.plain_text)) != ""

/-- The block loop of `get_page_content`: for each block with a `rich_text`
field, join the fragments; append `{"type": ..., "text": ...}` when the text
is non-empty. -/
def extractContent : List Block → List ContentBlock
  | [] => []
  | b :: bs =>
    match b.richText with
    | none => extractContent bs
    | some l =>
      let text := joinAll (l.map (fun rt => rt.plain_text))
      if text != "" then ⟨b.btype, text⟩ :: extractContent bs
      else extractContent bs

/-- Exceptions a remote call can raise: `Exc.api` models
`notion_client.errors.APIResponseError`, `Exc.other` any other exception;
both carry their `str(e)` message. -/
inductive Exc where
  | api (msg : String)
  | other (msg : String)
deriving Repr, DecidableEq

/-- `str(e)` of an exception. -/
def excMessage : Exc → String
  | .api m => m
  | .other m => m

/-- Result of `pages.create` / `pages.update`: the fields the handlers read
(`response["id"]`, `response["url"]`). -/
structure CreatedPage where
  id : String
  url : String
deriving Repr, DecidableEq

/-- Result of `search`: its `results` list (`response.get("results", [])`). -/
structure SearchResp where
  results : List Page
deriving Repr, DecidableEq

/-- Result of `blocks.children.list`: its `results` list. -/
structure BlocksResp where
  results : List Block
deriving Repr, DecidableEq

/-- One remote call performed by a handler, recorded in order, with the
payload it sends. -/
inductive Call where
  | search (query : Option String) (page_size : Nat)
  | pagesCreate (parent properties : J) (children : Option (List J))
  | pagesRetrieve (page_id : String)
  | blocksList (block_id : String)
  | blocksAppend (block_id : String) (children : List J)
  | pagesUpdate (page_id : String) (payload : List (String × J))
deriving Repr

/-- The two `except` clauses shared by every tool handler:
`APIResponseError` is enveloped with the `"Notion API error: "` marker in
front of the message, any other exception with its bare message. -/
def failEnv : Exc → J
  | .api m => .obj [("success", .bool false), ("error", .str ("Notion API error: " ++ m))]
  | .other m => .obj [("success", .bool false), ("error", .str m)]

/-- The title-property payload `{"title": {"title": [{"text": {"content": t}}]}}`
built by `create_page` and `update_page`. -/
def titleProperties (t : String) : J :=
  .obj [("title", .obj [("title",
    .list [.obj [("text", .obj [("content", .str t)])]])])]

/-- The paragraph-block payload built by `create_page` and `append_to_page`. -/
def paragraphBlock (content : String) : J :=
  .obj [("object", .str "block"), ("type", .str "paragraph"),
        ("paragraph", .obj [("rich_text",
          .list [.obj [("type", .str "text"),
                       ("text", .obj [("content", .str content)])]])])]

/-- `create_page(title, content, parent_page_id)`.  `searchResp` is the
response the fallback `notion.search(..., page_size=1)` would give (consumed
only when `parent_page_id` is absent); `createResp` is the response
`notion.pages.create` would give. -/
def create_page (title content : String) (parent_page_id : Option String)
    (searchResp : Except Exc SearchResp) (createResp : Except Exc CreatedPage) :
    J × List Call :=
  let successEnv : CreatedPage → J := fun r =>
    .obj [("success", .bool true), ("page_id", .str r.id), ("url", .str r.url),
          ("message", .str ("Page \x27" ++ title ++ "\x27 created successfully"))]
  let properties := titleProperties title
  let children := [paragraphBlock content]
  match parent_page_id with
  | some pid =>
    let c := Call.pagesCreate (.obj [("page_id", .str pid)]) properties (some children)
    match createResp with
    | .ok r => (successEnv r, [c])
    | .error e => (failEnv e, [c])
  | none =>
    match searchResp with
    | .error e => (failEnv e, [Call.search none 1])
    | .ok sr =>
      match sr.results with
      | [] =>
        (.obj [("error", .str "No parent page specified and no existing pages found. Please provide a parent_page_id.")],
         [Call.search none 1])
      | p :: _ =>
        let c := Call.pagesCreate (.obj [("page_id", .str p.id)]) properties (some children)
        match createResp with
        | .ok r => (successEnv r, [Call.search none 1, c])
        | .error e => (failEnv e, [Call.search none 1, c])

/-- One formatted entry of the `results` list built by `search_pages`. -/
def searchResultJ (p : Page) : J :=
  .obj [("id", .str p.id), ("title", .str (extractTitleSearch p)),
        ("url", .str p.url),
        ("last_edited", .str (p.last_edited_time.getD "Unknown"))]

/-- `search_pages(query, page_size)`.  Both arguments are forwarded to the
remote search; the handler itself formats every hit of the response. -/
def search_pages (query : String) (page_size : Nat)
    (resp : Except Exc SearchResp) : J × List Call :=
  match resp with
  | .error e => (failEnv e, [Call.search (some query) page_size])
  | .ok sr =>
    let results := sr.results.map searchResultJ
    (.obj [("success", .bool true), ("count", .nat results.length),
           ("results", .list results)],
     [Call.search (some query) page_size])

/-- `None`-or-string to JSON. -/
def optStrJ : Option String → J
  | none => J.null
  | some s => .str s

/-- JSON form of a `content` entry. -/
def contentBlockJ (cb : ContentBlock) : J :=
  .obj [("type", optStrJ cb.ctype), ("text", .str cb.text)]

/-- `get_page_content(page_id)`: retrieve the page, then (only if that
succeeded) list its child blocks. -/
def get_page_content (page_id : String)
    (retrieveResp : Except Exc Page) (blocksResp : Except Exc BlocksResp) :
    J × List Call :=
  match retrieveResp with
  | .error e => (failEnv e, [Call.pagesRetrieve page_id])
  | .ok page =>
    match blocksResp with
    | .error e => (failEnv e, [Call.pagesRetrieve page_id, Call.blocksList page_id])
    | .ok br =>
      (.obj [("success", .bool true), ("page_id", .str page_id),
             ("title", .str (extractTitleScan page)), ("url", .str page.url),
             ("content", .list ((extractContent br.results).map contentBlockJ)),
             ("last_edited", optStrJ page.last_edited_time)],
       [Call.pagesRetrieve page_id, Call.blocksList page_id])

/-- `append_to_page(page_id, content)`. -/
def append_to_page (page_id content : String) (resp : Except Exc Unit) :
    J × List Call :=
  let c := Call.blocksAppend page_id [paragraphBlock content]
  match resp with
  | .error e => (failEnv e, [c])
  | .ok _ =>
    (.obj [("success", .bool true),
           ("message", .str ("Content appended to page " ++ page_id))],
     [c])

/-- The `update_data` dictionary of `update_page`, in insertion order:
`"properties"` when a title is supplied, then `"archived"` when the flag is
supplied. -/
def updateData (title : Option String) (archived : Option Bool) :
    List (String × J) :=
  (match title with
   | some t => [("properties", titleProperties t)]
   | none => []) ++
  (match archived with
   | some a => [("archived", J.bool a)]
   | none => [])

/-- `update_page(page_id, title, archived)`: early failure return when
`update_data` is empty, otherwise one `pages.update` call with exactly
`update_data` as payload. -/
def update_page (page_id : String) (title : Option String)
    (archived : Option Bool) (resp : Except Exc CreatedPage) : J × List Call :=
  let ud := updateData title archived
  if ud.isEmpty then
    (.obj [("success", .bool false), ("error", .str "No update parameters provided")], [])
  else
    match resp with
    | .error e => (failEnv e, [Call.pagesUpdate page_id ud])
    | .ok r =>
      (.obj [("success", .bool true), ("page_id", .str r.id), ("url", .str r.url),
             ("message", .str "Page updated successfully")],
       [Call.pagesUpdate page_id ud])

/-- `create_database_entry(database_id, properties)`: the caller-supplied
properties are forwarded unmodified. -/
def create_database_entry (database_id : String) (properties : J)
    (resp : Except Exc CreatedPage) : J × List Call :=
  let c := Call.pagesCreate (.obj [("database_id", .str database_id)]) properties none
  match resp with
  | .error e => (failEnv e, [c])
  | .ok r =>
    (.obj [("success", .bool true), ("page_id", .str r.id), ("url", .str r.url),
           ("message", .str "Database entry created successfully")],
     [c])

/-- The four formatted lines `get_recent_pages` emits per page. -/
def recentPageLines (p : Page) : List String :=
  ["- **" ++ extractTitleScan p ++ "**",
   "  - ID: \x60" ++ p.id ++ "\x60",
   "  - URL: " ++ p.url,
   "  - Last edited: " ++ p.last_edited_time.getD "Unknown" ++ "\n"]

/-- `get_recent_pages()`: renders a text listing; its single `except
Exception` clause (which also catches `APIResponseError`) renders an inline
error string. -/
def get_recent_pages (resp : Except Exc SearchResp) : String :=
  match resp with
  | .error e => "Error retrieving recent pages: " ++ excMessage e
  | .ok sr =>
    String.intercalate "\n"
      ("# Recently Edited Pages\n" :: (sr.results.map recentPageLines).flatten)

/-- Whether a handler result carries a boolean `success` field. -/
def hasBoolSuccess (j : J) : Bool :=
  match j.lookup "success" with
  | some (.bool _) => true
  | _ => false

/-- Whether any property of the page carries the type tag `"title"`. -/
def hasTitleTagged (page : Page) : Bool :=
  match page.properties with
  | none => false
  | some props => props.any (fun p => p.2.ptype == some "title")

/-- The hypothesis of the `"Untitled"` claims: every property either lacks
the `"title"` tag or has an empty title list. -/
def noUsableTitleTagged (page : Page) : Bool :=
  match page.properties with
  | none => true
  | some props => props.all (fun p => !(isTitleProp p.2))

/-- Whether the entry literally named `"title"` (if any) has an empty title
list. -/
def titleNamedEmpty (page : Page) : Bool :=
  match page.properties with
  | none => true
  | some props =>
    match props.lookup "title" with
    | some pv => pv.title.isEmpty
    | none => true

/-- The `results` list of a handler result (empty on failure shapes). -/
def resultsOf (j : J) : List J :=
  match j.lookup "results" with
  | some (.list l) => l
  | _ => []

/-- Truncate a property's title list to its first fragment. -/
def truncateProp (pv : PropVal) : PropVal :=
  ⟨pv.ptype, pv.title.take 1⟩

/-- Truncate every property's title list of a page to its first fragment. -/
def truncatePage (p : Page) : Page :=
  ⟨p.id, p.url, p.last_edited_time,
   p.properties.map (fun props => props.map (fun q => (q.1, truncateProp q.2)))⟩

theorem hasBoolSuccess_failEnv (e : Exc) : hasBoolSuccess (failEnv e) = true := by
  cases e <;> rfl

/-- Claim C1: every tool handler result is a mapping with a boolean `success`
field, and `get_recent_pages` always returns a string.  The code violates
this in one spot: `create_page` with no parent and an empty fallback search
returns `{"error": ...}` with no `success` key at all (first conjunct).
Every other handler path does carry a boolean `success` field, and
`get_recent_pages` renders failures as a plain string. -/
theorem C1_success_field :
    hasBoolSuccess (create_page "T" "C" none (Except.ok ⟨[]⟩) (Except.ok ⟨"id1", "u1"⟩)).1 = false
    ∧ (∀ q n r, hasBoolSuccess (search_pages q n r).1 = true)
    ∧ (∀ pid rr br, hasBoolSuccess (get_page_content pid rr br).1 = true)
    ∧ (∀ pid c r, hasBoolSuccess (append_to_page pid c r).1 = true)
    ∧ (∀ pid t a r, hasBoolSuccess (update_page pid t a r).1 = true)
    ∧ (∀ d pr r, hasBoolSuccess (create_database_entry d pr r).1 = true)
    ∧ (∀ t c pid sr cr, hasBoolSuccess (create_page t c (some pid) sr cr).1 = true)
    ∧ (∀ t c cr e, hasBoolSuccess (create_page t c none (Except.error e) cr).1 = true)
    ∧ (∀ t c p l cr, hasBoolSuccess (create_page t c none (Except.ok ⟨p :: l⟩) cr).1 = true)
    ∧ (∀ m, get_recent_pages (Except.error (Exc.other m)) = "Error retrieving recent pages: " ++ m) := by
  refine ⟨rfl, ?_, ?_, ?_, ?_, ?_, ?_, ?_, ?_, fun m => rfl⟩
  · intro q n r
    cases r with
    | error e => exact hasBoolSuccess_failEnv e
    | ok sr => rfl
  · intro pid rr br
    cases rr with
    | error e => exact hasBoolSuccess_failEnv e
    | ok pg =>
      cases br with
      | error e => exact hasBoolSuccess_failEnv e
      | ok b => rfl
  · intro pid c r
    cases r with
    | error e => exact hasBoolSuccess_failEnv e
    | ok u => rfl
  · intro pid t a r
    cases t <;> cases a <;> cases r <;>
      first
      | rfl
      | exact hasBoolSuccess_failEnv _
  · intro d pr r
    cases r with
    | error e => exact hasBoolSuccess_failEnv e
    | ok cr => rfl
  · intro t c pid sr cr
    cases cr with
    | error e => exact hasBoolSuccess_failEnv e
    | ok r => rfl
  · intro t c cr e
    exact hasBoolSuccess_failEnv e
  · intro t c p l cr
    cases cr with
    | error e => exact hasBoolSuccess_failEnv e
    | ok r => rfl

/-- Claim C2: `create_page` without a parent and with an empty fallback
search result set.  The error message does contain `"parent"` and no page
creation call is made, but the returned mapping has no `success` key at all
(so in particular `success` is not `false` as claimed). -/
theorem C2_no_parent_early_return :
    (create_page "Note" "Body" none (Except.ok ⟨[]⟩) (Except.ok ⟨"id2", "u2"⟩)).1.lookup "success" = none
    ∧ (create_page "Note" "Body" none (Except.ok ⟨[]⟩) (Except.ok ⟨"id2", "u2"⟩)).1.lookup "error"
        = some (J.str ("No " ++ "parent" ++ " page specified and no existing pages found. Please provide a parent_page_id."))
    ∧ (create_page "Note" "Body" none (Except.ok ⟨[]⟩) (Except.ok ⟨"id2", "u2"⟩)).2
        = [Call.search none 1] :=
  ⟨rfl, rfl, rfl⟩

/-- Claim C4: in every tool handler, a raised `APIResponseError` is returned
as `{success: false, error: "Notion API error: " ++ msg}` and any other
exception as `{success: false, error: msg}` — the result is always exactly
`failEnv` of the raised exception, for every call site that can raise. -/
theorem C4_exception_enveloping :
    (∀ m, failEnv (Exc.api m)
        = J.obj [("success", J.bool false), ("error", J.str ("Notion API error: " ++ m))])
    ∧ (∀ m, failEnv (Exc.other m) = J.obj [("success", J.bool false), ("error", J.str m)])
    ∧ (∀ t c pid sr e, (create_page t c (some pid) sr (Except.error e)).1 = failEnv e)
    ∧ (∀ t c cr e, (create_page t c none (Except.error e) cr).1 = failEnv e)
    ∧ (∀ t c p l e, (create_page t c none (Except.ok ⟨p :: l⟩) (Except.error e)).1 = failEnv e)
    ∧ (∀ q n e, (search_pages q n (Except.error e)).1 = failEnv e)
    ∧ (∀ pid e br, (get_page_content pid (Except.error e) br).1 = failEnv e)
    ∧ (∀ pid pg e, (get_page_content pid (Except.ok pg) (Except.error e)).1 = failEnv e)
    ∧ (∀ pid c e, (append_to_page pid c (Except.error e)).1 = failEnv e)
    ∧ (∀ pid t a e, (update_page pid (some t) a (Except.error e)).1 = failEnv e)
    ∧ (∀ pid a e, (update_page pid none (some a) (Except.error e)).1 = failEnv e)
    ∧ (∀ d pr e, (create_database_entry d pr (Except.error e)).1 = failEnv e) := by
  refine ⟨fun m => rfl, fun m => rfl, fun t c pid sr e => rfl, fun t c cr e => rfl,
          fun t c p l e => rfl, fun q n e => rfl, fun pid e br => rfl,
          fun pid pg e => rfl, fun pid c e => rfl, ?_, fun pid a e => rfl,
          fun d pr e => rfl⟩
  intro pid t a e
  cases a <;> rfl

/-- Claim C5: `update_page` with neither parameter returns the
`"No update parameters provided"` failure (which contains
`"No update parameters"`) and performs no remote call; with at least one
parameter supplied, the payload of the single `pages.update` call contains
exactly the supplied fields, in insertion order. -/
theorem C5_update_page_parameters :
    (∀ pid r, update_page pid none none r
        = (J.obj [("success", J.bool false), ("error", J.str "No update parameters provided")], []))
    ∧ ("No update parameters provided" = "" ++ "No update parameters" ++ " provided")
    ∧ (∀ t, updateData (some t) none = [("properties", titleProperties t)])
    ∧ (∀ a, updateData none (some a) = [("archived", J.bool a)])
    ∧ (∀ t a, updateData (some t) (some a)
        = [("properties", titleProperties t), ("archived", J.bool a)])
    ∧ (∀ pid t a r, (update_page pid (some t) a r).2
        = [Call.pagesUpdate pid (updateData (some t) a)])
    ∧ (∀ pid a r, (update_page pid none (some a) r).2
        = [Call.pagesUpdate pid (updateData none (some a))]) := by
  refine ⟨fun pid r => rfl, rfl, fun t => rfl, fun a => rfl, fun t a => rfl, ?_, ?_⟩
  · intro pid t a r
    cases a <;> cases r <;> rfl
  · intro pid a r
    cases r <;> rfl

/-- Claim C9: `get_page_content` retrieves the page first; the child-block
listing happens only after a successful retrieval (on retrieval failure the
trace is the single retrieve call), and the handler never performs more than
two remote calls. -/
theorem C9_retrieve_before_blocks :
    (∀ pid e br, (get_page_content pid (Except.error e) br).2 = [Call.pagesRetrieve pid])
    ∧ (∀ pid pg br, (get_page_content pid (Except.ok pg) br).2
        = [Call.pagesRetrieve pid, Call.blocksList pid])
    ∧ (∀ pid rr br, (get_page_content pid rr br).2.length ≤ 2) := by
  refine ⟨fun pid e br => rfl, ?_, ?_⟩
  · intro pid pg br
    cases br <;> rfl
  · intro pid rr br
    cases rr with
    | error e => exact Nat.le_succ 1
    | ok pg => cases br <;> exact Nat.le_refl 2

theorem extractContent_eq_filter (blocks : List Block) :
    extractContent blocks
      = (blocks.filter blockKept).map
          (fun b => ContentBlock.mk b.btype (blockJoinedText b)) := by
  induction blocks with
  | nil => rfl
  | cons b bs ih =>
    cases hb : b.richText with
    | none =>
      simp [extractContent, List.filter_cons, blockKept, hb, ih]
    | some l =>
      cases ht : (joinAll (l.map (fun rt => rt.plain_text)) != "") <;>
        simp [extractContent, List.filter_cons, blockKept, blockJoinedText, hb, ht, ih]

/-- Claim C7: the `content` field of a `get_page_content` success envelope
consists of exactly the child blocks with a non-empty concatenated
`rich_text` text, in order; in particular three blocks of which the middle
one has empty `rich_text` yield a two-entry `content` in original order. -/
theorem C7_content_filter :
    (∀ blocks, extractContent blocks
        = (blocks.filter blockKept).map
            (fun b => ContentBlock.mk b.btype (blockJoinedText b)))
    ∧ (∀ pid pg blocks,
        (get_page_content pid (Except.ok pg) (Except.ok ⟨blocks⟩)).1.lookup "content"
          = some (J.list ((extractContent blocks).map contentBlockJ)))
    ∧ (extractContent
        [ { btype := some "paragraph", richText := some [{ plain_text := "Hello" }] },
          { btype := some "paragraph", richText := some [] },
          { btype := some "heading_1", richText := some [{ plain_text := "World" }] } ]
        = [ { ctype := some "paragraph", text := "Hello" },
            { ctype := some "heading_1", text := "World" } ]) := by
  exact ⟨extractContent_eq_filter, fun pid pg blocks => rfl, rfl⟩

theorem scanTitle_untitled (props : List (String × PropVal))
    (h : props.all (fun p => !(isTitleProp p.2)) = true) :
    scanTitle props = "Untitled" := by
  unfold scanTitle
  have hf : props.find? (fun p => isTitleProp p.2) = none := by
    rw [List.find?_eq_none]
    intro x hx
    have hx2 := List.all_eq_true.mp h x hx
    simp only [Bool.not_eq_true'] at hx2
    simp [hx2]
  rw [hf]

/-- Claim C3 counterexample: a page whose `properties` mapping has a
title-tagged property named `"Name"` (first fragment `"Hello"`) alongside an
entry literally named `"title"` with no usable title list.  The tag-scan of
`get_page_content` / `get_recent_pages` extracts `"Hello"` as the claim
says, but the extraction in `search_pages` returns `"Untitled"`: the branch
preferring the `"title"` name swallows the case and the tag-scan is never
reached, so the claimed property-name independence fails there. -/
def c3Page : Page :=
  { id := "p3", url := "u3", last_edited_time := none,
    properties := some [("title", { ptype := some "rich_text", title := [] }),
                        ("Name", { ptype := some "title",
                                   title := [{ plain_text := "Hello" }] })] }

/-- Claim C3 is refuted on `c3Page`: it has a title-tagged property with a
non-empty title list (first fragment `"Hello"`), yet `search_pages`' title
extraction yields `"Untitled"`, not `"Hello"`. -/
theorem C3_counterexample_search_pages :
    isTitleProp { ptype := some "title", title := [{ plain_text := "Hello" }] } = true
    ∧ extractTitleScan c3Page = "Hello"
    ∧ extractTitleSearch c3Page = "Untitled"
    ∧ (extractTitleSearch c3Page == "Hello") = false :=
  ⟨rfl, rfl, rfl, rfl⟩

/-- Claim C3 (amended): title extraction returns the first fragment of the
first title-tagged property with a non-empty title list, independent of that
property's name — unconditionally for the tag-scan used by
`get_page_content` and `get_recent_pages`, and for `search_pages` only when
the properties mapping has no entry literally named `"title"`. -/
theorem C3_amended_name_independent :
    (∀ pg props nm pv f rest,
        pg.properties = some props →
        props.find? (fun p => isTitleProp p.2) = some (nm, pv) →
        pv.title = f :: rest →
        extractTitleScan pg = f.plain_text)
    ∧ (∀ pg props nm pv f rest,
        pg.properties = some props →
        props.lookup "title" = none →
        props.find? (fun p => isTitleProp p.2) = some (nm, pv) →
        pv.title = f :: rest →
        extractTitleSearch pg = f.plain_text) := by
  constructor
  · intro pg props nm pv f rest hp hf htl
    simp [extractTitleScan, hp, scanTitle, hf, htl, firstPlainText]
  · intro pg props nm pv f rest hp hl hf htl
    simp [extractTitleSearch, hp, hl, scanTitle, hf, htl, firstPlainText]

/-- Witness for the amended C3 at a concrete page whose only property is a
title-tagged one named `"Name"`. -/
theorem C3_amended_witness :
    extractTitleSearch
      { id := "w3", url := "w3", last_edited_time := none,
        properties := some [("Name", { ptype := some "title",
                                       title := [{ plain_text := "Hi" }] })] } = "Hi" :=
  C3_amended_name_independent.2 _
    [("Name", { ptype := some "title", title := [{ plain_text := "Hi" }] })]
    "Name" { ptype := some "title", title := [{ plain_text := "Hi" }] }
    { plain_text := "Hi" } [] rfl (by decide) (by decide) rfl

/-- Claim C8 counterexample object: no property carries the type tag
`"title"`, but the entry literally named `"title"` has a non-empty title
list. -/
def c8Page : Page :=
  { id := "p8", url := "u8", last_edited_time := none,
    properties := some [("title", { ptype := some "rich_text",
                                    title := [{ plain_text := "X" }] })] }

/-- Claim C8 is refuted on `c8Page`: it has no title-tagged property at all,
yet `search_pages`' title extraction returns `"X"` instead of `"Untitled"`,
because the branch preferring the `"title"`-named entry never checks the
type tag. -/
theorem C8_counterexample_search_pages :
    hasTitleTagged c8Page = false
    ∧ noUsableTitleTagged c8Page = true
    ∧ extractTitleSearch c8Page = "X"
    ∧ (extractTitleSearch c8Page == "Untitled") = false :=
  ⟨rfl, rfl, rfl, rfl⟩

/-- Claim C8 (amended): when every property either lacks the `"title"` tag
or has an empty title list, the tag-scan extraction of `get_page_content`
and `get_recent_pages` returns `"Untitled"`; the `search_pages` extraction
does so too provided additionally any entry literally named `"title"` has an
empty title list. -/
theorem C8_amended_untitled :
    (∀ pg, noUsableTitleTagged pg = true → extractTitleScan pg = "Untitled")
    ∧ (∀ pg, noUsableTitleTagged pg = true → titleNamedEmpty pg = true →
        extractTitleSearch pg = "Untitled") := by
  constructor
  · intro pg h
    cases hp : pg.properties with
    | none => simp [extractTitleScan, hp]
    | some props =>
      simp only [extractTitleScan, hp]
      apply scanTitle_untitled
      simp only [noUsableTitleTagged, hp] at h
      exact h
  · intro pg h1 h2
    cases hp : pg.properties with
    | none => simp [extractTitleSearch, hp]
    | some props =>
      cases hl : props.lookup "title" with
      | none =>
        simp only [extractTitleSearch, hp, hl]
        apply scanTitle_untitled
        simp only [noUsableTitleTagged, hp] at h1
        exact h1
      | some tp =>
        simp only [extractTitleSearch, hp, hl]
        simp only [titleNamedEmpty, hp, hl] at h2
        cases htl : tp.title with
        | nil => rfl
        | cons f r =>
          rw [htl] at h2
          simp at h2

/-- Witness for the amended C8 at a concrete page with a single non-title
property. -/
theorem C8_amended_witness :
    extractTitleSearch
      { id := "w8", url := "w8", last_edited_time := none,
        properties := some [("Status", { ptype := some "select", title := [] })] }
      = "Untitled" :=
  C8_amended_untitled.2 _ (by decide) (by decide)

/-- A minimal search hit used in concrete search_pages instances. -/
def c6Page : Page :=
  { id := "p6", url := "u6", last_edited_time := none, properties := none }

/-- Claim C6 is refuted: `search_pages` forwards `page_size` to the remote
but does no local capping, so a remote response carrying two hits against
`page_size = 1` yields a two-entry `results` list. -/
theorem C6_counterexample_uncapped :
    (resultsOf (search_pages "q" 1 (Except.ok ⟨[c6Page, c6Page]⟩)).1).length = 2
    ∧ 1 < (resultsOf (search_pages "q" 1 (Except.ok ⟨[c6Page, c6Page]⟩)).1).length := by
  refine ⟨rfl, ?_⟩
  decide

/-- Claim C6 (amended): on a successful search, `count` always equals the
length of `results`, and `results` has exactly one entry per hit of the
remote response — hence at most `page_size` entries whenever the remote
response itself honors the requested `page_size`. -/
theorem C6_amended_count :
    (∀ q n l, (search_pages q n (Except.ok ⟨l⟩)).1.lookup "count"
        = some (J.nat (resultsOf (search_pages q n (Except.ok ⟨l⟩)).1).length))
    ∧ (∀ q n l, (resultsOf (search_pages q n (Except.ok ⟨l⟩)).1).length = l.length)
    ∧ (∀ (q : String) (n : Nat) (l : List Page), l.length ≤ n →
        (resultsOf (search_pages q n (Except.ok ⟨l⟩)).1).length ≤ n) := by
  have h2 : ∀ (q : String) (n : Nat) (l : List Page),
      (resultsOf (search_pages q n (Except.ok ⟨l⟩)).1).length = l.length := by
    intro q n l
    have hr : resultsOf (search_pages q n (Except.ok ⟨l⟩)).1 = l.map searchResultJ := rfl
    rw [hr, List.length_map]
  refine ⟨fun q n l => rfl, h2, ?_⟩
  intro q n l h
  rw [h2 q n l]
  exact h

/-- Witness for the amended C6 at a concrete one-hit response with
`page_size = 3`. -/
theorem C6_amended_witness :
    (resultsOf (search_pages "w" 3 (Except.ok ⟨[c6Page]⟩)).1).length ≤ 3 :=
  C6_amended_count.2.2 "w" 3 [c6Page] (by decide)

theorem isTitleProp_truncate (pv : PropVal) :
    isTitleProp (truncateProp pv) = isTitleProp pv := by
  obtain ⟨pt, tl⟩ := pv
  cases tl <;> rfl

theorem firstPlainText_take (l : List RichText) :
    firstPlainText (l.take 1) = firstPlainText l := by
  cases l <;> rfl

theorem lookup_truncate (k : String) (props : List (String × PropVal)) :
    List.lookup k (props.map (fun q => (q.1, truncateProp q.2)))
      = (List.lookup k props).map truncateProp := by
  induction props with
  | nil => rfl
  | cons h t ih =>
    obtain ⟨k1, v1⟩ := h
    simp only [List.map, List.lookup]
    cases hb : (k == k1) <;> simp [hb, ih]

theorem find?_truncate (props : List (String × PropVal)) :
    List.find? (fun p => isTitleProp p.2) (props.map (fun q => (q.1, truncateProp q.2)))
      = (List.find? (fun p => isTitleProp p.2) props).map
          (fun q => (q.1, truncateProp q.2)) := by
  induction props with
  | nil => rfl
  | cons h t ih =>
    obtain ⟨k1, v1⟩ := h
    simp only [List.map, List.find?, isTitleProp_truncate]
    cases hb : isTitleProp v1 <;> simp [hb, ih]

theorem scanTitle_truncate (props : List (String × PropVal)) :
    scanTitle (props.map (fun q => (q.1, truncateProp q.2))) = scanTitle props := by
  unfold scanTitle
  rw [find?_truncate]
  cases hf : List.find? (fun p => isTitleProp p.2) props with
  | none => rfl
  | some q =>
    obtain ⟨nm, pv⟩ := q
    simp [truncateProp, firstPlainText_take]

/-- Claim C10: title extraction reads only the first fragment of a title
list — truncating every property's title list to its first fragment changes
neither extraction function; on a single title-tagged property (any name)
both return exactly the first fragment's `plain_text`; block-text
extraction instead concatenates the first fragment with all the rest. -/
theorem C10_first_fragment_only :
    (∀ pg, extractTitleSearch (truncatePage pg) = extractTitleSearch pg)
    ∧ (∀ pg, extractTitleScan (truncatePage pg) = extractTitleScan pg)
    ∧ (∀ nm f rest i u le,
        extractTitleSearch ⟨i, u, le, some [(nm, ⟨some "title", f :: rest⟩)]⟩
            = f.plain_text
        ∧ extractTitleScan ⟨i, u, le, some [(nm, ⟨some "title", f :: rest⟩)]⟩
            = f.plain_text)
    ∧ (∀ bt f rest, blockJoinedText ⟨bt, some (f :: rest)⟩
        = f.plain_text ++ joinAll (rest.map (fun rt => rt.plain_text))) := by
  refine ⟨?_, ?_, ?_, fun bt f rest => rfl⟩
  · intro pg
    cases hp : pg.properties with
    | none => simp [extractTitleSearch, truncatePage, hp]
    | some props =>
      simp only [extractTitleSearch, truncatePage, hp, Option.map]
      rw [lookup_truncate]
      cases hl : List.lookup "title" props with
      | none => simp [scanTitle_truncate]
      | some tp => simp [truncateProp, firstPlainText_take]
  · intro pg
    cases hp : pg.properties with
    | none => simp [extractTitleScan, truncatePage, hp]
    | some props =>
      simp only [extractTitleScan, truncatePage, hp, Option.map]
      exact scanTitle_truncate props
  · intro nm f rest i u le
    constructor
    · cases hb : ("title" == nm) <;>
        simp [extractTitleSearch, List.lookup, hb, scanTitle, List.find?,
              isTitleProp, firstPlainText]
    · simp [extractTitleScan, scanTitle, List.find?, isTitleProp, firstPlainText]

end NotionMCP
